import Mathlib

/-!
A shallow embedding of `src/evn/cli/auto_click_decorator.py` (the only
source module of the repository besides a build-session file), together
with theorems settling the specification's claims about it.

Python values that can appear as annotations, defaults and metadata are
modelled by the inductive `PyObj`; `typing.Annotated[...]` objects are
`PyObj.annotated args` (the tuple `typing.get_args` would return), the
`inspect.Parameter.empty` sentinel is `PyObj.emptySentinel`, the type
object `bool` is `PyObj.boolTy`, and Python `None` is `PyObj.pyNone`.
Raised exceptions become `Except.error` values carrying the data that the
Python error message interpolates.
-/

/-- Universe of Python objects relevant to the module: type objects
(`bool` and others), `typing.Annotated` composites with their argument
tuple, the `inspect.Parameter.empty` sentinel, `None`, and other runtime
values (defaults, metadata items). -/
inductive PyObj where
  | boolTy : PyObj
  | otherTy : String → PyObj
  | annotated : List PyObj → PyObj
  | emptySentinel : PyObj
  | pyNone : PyObj
  | val : String → PyObj

mutual

/-- Decidable equality on `PyObj` (the automatic derivation does not
handle the nested `List PyObj`). -/
def PyObj.decEq : (a b : PyObj) → Decidable (a = b)
  | .boolTy, .boolTy => isTrue rfl
  | .otherTy s, .otherTy t =>
    match String.decEq s t with
    | isTrue h => isTrue (by rw [h])
    | isFalse h => isFalse (fun hh => by cases hh; exact h rfl)
  | .annotated xs, .annotated ys =>
    match PyObj.decEqList xs ys with
    | isTrue h => isTrue (by rw [h])
    | isFalse h => isFalse (fun hh => by cases hh; exact h rfl)
  | .emptySentinel, .emptySentinel => isTrue rfl
  | .pyNone, .pyNone => isTrue rfl
  | .val s, .val t =>
    match String.decEq s t with
    | isTrue h => isTrue (by rw [h])
    | isFalse h => isFalse (fun hh => by cases hh; exact h rfl)
  | .boolTy, .otherTy _ => isFalse (by intro h; cases h)
  | .boolTy, .annotated _ => isFalse (by intro h; cases h)
  | .boolTy, .emptySentinel => isFalse (by intro h; cases h)
  | .boolTy, .pyNone => isFalse (by intro h; cases h)
  | .boolTy, .val _ => isFalse (by intro h; cases h)
  | .otherTy _, .boolTy => isFalse (by intro h; cases h)
  | .otherTy _, .annotated _ => isFalse (by intro h; cases h)
  | .otherTy _, .emptySentinel => isFalse (by intro h; cases h)
  | .otherTy _, .pyNone => isFalse (by intro h; cases h)
  | .otherTy _, .val _ => isFalse (by intro h; cases h)
  | .annotated _, .boolTy => isFalse (by intro h; cases h)
  | .annotated _, .otherTy _ => isFalse (by intro h; cases h)
  | .annotated _, .emptySentinel => isFalse (by intro h; cases h)
  | .annotated _, .pyNone => isFalse (by intro h; cases h)
  | .annotated _, .val _ => isFalse (by intro h; cases h)
  | .emptySentinel, .boolTy => isFalse (by intro h; cases h)
  | .emptySentinel, .otherTy _ => isFalse (by intro h; cases h)
  | .emptySentinel, .annotated _ => isFalse (by intro h; cases h)
  | .emptySentinel, .pyNone => isFalse (by intro h; cases h)
  | .emptySentinel, .val _ => isFalse (by intro h; cases h)
  | .pyNone, .boolTy => isFalse (by intro h; cases h)
  | .pyNone, .otherTy _ => isFalse (by intro h; cases h)
  | .pyNone, .annotated _ => isFalse (by intro h; cases h)
  | .pyNone, .emptySentinel => isFalse (by intro h; cases h)
  | .pyNone, .val _ => isFalse (by intro h; cases h)
  | .val _, .boolTy => isFalse (by intro h; cases h)
  | .val _, .otherTy _ => isFalse (by intro h; cases h)
  | .val _, .annotated _ => isFalse (by intro h; cases h)
  | .val _, .emptySentinel => isFalse (by intro h; cases h)
  | .val _, .pyNone => isFalse (by intro h; cases h)

/-- Decidable equality on lists of `PyObj`. -/
def PyObj.decEqList : (xs ys : List PyObj) → Decidable (xs = ys)
  | [], [] => isTrue rfl
  | [], _ :: _ => isFalse (by intro h; cases h)
  | _ :: _, [] => isFalse (by intro h; cases h)
  | x :: xs, y :: ys =>
    match PyObj.decEq x y with
    | isFalse h => isFalse (fun hh => by cases hh; exact h rfl)
    | isTrue h =>
      match PyObj.decEqList xs ys with
      | isTrue h2 => isTrue (by rw [h, h2])
      | isFalse h2 => isFalse (fun hh => by cases hh; exact h2 rfl)

end

instance : DecidableEq PyObj := PyObj.decEq

/-- An opaque `click.ParamType` descriptor, as produced by the
type-handler registry. -/
structure ParamType where
  ptName : String
deriving DecidableEq

/-- An `inspect.Parameter`: its declared annotation (the value of
`param.annotation`, `PyObj.emptySentinel` when absent) and its default
(`PyObj.emptySentinel` when absent). The name is carried separately, as
in the source, which passes `name` and `param` to the synthesizer. -/
structure Param where
  annot : PyObj
  default : PyObj
deriving DecidableEq

/-- Modelled from the spec: the `ClickTypeHandlers` registry class
(`evn.cli.click_type_handler`) is not under `src/`; the spec describes it
as "a type-handler registry object exposing one operation:
resolve(base type, metadata) → CLI parameter-type descriptor or none".
`resolve` models `typehint_to_click_paramtype`; `nonempty` models the
Python truthiness of the registry collection (`if ... and type_handlers`). -/
structure ClickTypeHandlers where
  resolve : PyObj → Option (List PyObj) → Option ParamType
  nonempty : Bool

/-- A generated Click decorator: either `click.option` (option names,
`is_flag`, `default`, `show_default`, optional `type=` descriptor) or
`click.argument` (bound name, optional `type=` descriptor). An absent
keyword is modelled by Click's own default for it (`is_flag=False`,
`show_default=False`, no type). -/
inductive ClickDeco where
  | option : List String → Bool → PyObj → Bool → Option ParamType → ClickDeco
  | argument : String → Option ParamType → ClickDeco
deriving DecidableEq

/-- The module's two raised errors, carrying the data the Python message
interpolates: `noParamType` is the `ValueError` of
`_generate_click_decorator` (identifying basetype, annotation and
metadata); `alreadyCommand` is the `RuntimeError` of
`auto_click_decorate_command`. -/
inductive CliError where
  | noParamType : PyObj → Option PyObj → Option (List PyObj) → CliError
  | alreadyCommand : CliError
deriving DecidableEq

/-- `_extract_annot`: if the annotation is a `typing.Annotated` with
a non-empty argument tuple, return `(args[0], annotation, args[1:])`;
otherwise return `(annotation, None, None)`. -/
def extract_annot (a : PyObj) : PyObj × Option PyObj × Option (List PyObj) :=
  match a with
  | .annotated (x :: rest) => (x, some a, some rest)
  | _ => (a, none, none)

/-- Python truthiness test `not metadata`: true for `None` and for an
empty tuple. -/
def metadataFalsy : Option (List PyObj) → Bool
  | none => true
  | some [] => true
  | some (_ :: _) => false

/-- `name.replace('_', '-')`. -/
def hyphenate (s : String) : String :=
  String.mk (s.data.map (fun c => if c = '_' then '-' else c))

/-- `_generate_click_decorator(name, param, type_handlers)`: resolve the
annotation, look the base type up in the registry, raise `ValueError` if
the lookup fails while the registry is non-empty, then build the Click
decorator following the source's branch order: metadata-free `bool`
becomes a flag option; a parameter with no default becomes a positional
argument (typed when the lookup succeeded); a parameter with a default
becomes an option with `show_default=True`, the resolved type when found,
and `is_flag` only when the second output of `_extract_annot` is the
`bool` type object itself. -/
def generate_click_decorator (name : String) (param : Param)
    (type_handlers : ClickTypeHandlers) : Except CliError ClickDeco :=
  let r := extract_annot param.annot
  let basetype := r.1
  let annot := r.2.1
  let metadata := r.2.2
  let param_type := type_handlers.resolve basetype metadata
  if param_type.isNone ∧ type_handlers.nonempty then
    .error (.noParamType basetype annot metadata)
  else
    let has_default := param.default ≠ PyObj.emptySentinel
    if basetype = PyObj.boolTy ∧ metadataFalsy metadata then
      .ok (.option ["--" ++ hyphenate name] true param.default false none)
    else if ¬has_default ∧ param_type.isSome then
      .ok (.argument name param_type)
    else if ¬has_default then
      .ok (.argument name none)
    else
      .ok (.option ["--" ++ hyphenate name] (annot == some PyObj.boolTy)
            param.default true param_type)

deriving instance DecidableEq for Except

example :
    generate_click_decorator "verbose" ⟨PyObj.boolTy, PyObj.val "False"⟩
      ⟨fun _ _ => none, false⟩ =
      .ok (.option ["--verbose"] true (PyObj.val "False") false none) := by
  decide

example :
    generate_click_decorator "foo_bar" ⟨PyObj.boolTy, PyObj.emptySentinel⟩
      ⟨fun _ _ => none, true⟩ =
      .error (.noParamType PyObj.boolTy none none) := by
  decide

example :
    generate_click_decorator "n"
      ⟨PyObj.annotated [PyObj.boolTy, PyObj.val "m"], PyObj.val "False"⟩
      ⟨fun _ _ => some ⟨"BOOLPT"⟩, true⟩ =
      .ok (.option ["--n"] false (PyObj.val "False") true (some ⟨"BOOLPT"⟩)) := by
  decide

/-- The callable handed to `auto_click_decorate_command`: whether it is
already a `click.Command` instance, its signature (`inspect.signature`,
parameters in declaration order), and the `name` attributes of any
entries of its `__click_params__` list (a falsy/absent name is modelled
by `""`, which the source skips when collecting manual parameters). -/
structure PyFunction where
  isCommand : Bool
  params : List (String × Param)
  clickParams : List String

/-- The set of manually decorated parameter names: names of
`fn.__click_params__` entries that have a truthy `name`. -/
def manualParams (fn : PyFunction) : List String :=
  fn.clickParams.filter (fun s => s != "")

/-- `name.startswith("_")`: the first character is an underscore. -/
def startsWithUnderscore (s : String) : Bool :=
  match s.data with
  | c :: _ => c = '_'
  | [] => false

/-- The receiver skip: `if params and params[0][0] == "self": params = params[1:]`. -/
def dropReceiver (ps : List (String × Param)) : List (String × Param) :=
  match ps with
  | (n, p) :: rest => if n = "self" then rest else (n, p) :: rest
  | [] => []

/-- The decorator-collection loop of `auto_click_decorate_command`:
skip names starting with `_` and manually decorated names, otherwise
generate a decorator (propagating the synthesizer's `ValueError`),
collecting the generated decorators in enumeration order. -/
def genDecorators (type_handlers : ClickTypeHandlers) (manual : List String) :
    List (String × Param) → Except CliError (List (String × ClickDeco))
  | [] => .ok []
  | (name, param) :: rest =>
    if startsWithUnderscore name then genDecorators type_handlers manual rest
    else if name ∈ manual then genDecorators type_handlers manual rest
    else
      match generate_click_decorator name param type_handlers with
      | .error e => .error e
      | .ok d =>
        match genDecorators type_handlers manual rest with
        | .error e => .error e
        | .ok ds => .ok ((name, d) :: ds)

/-- Modelled from the spec: Click's decorator application (the library is
an external dependency, not under `src/`). The spec says the generated
decorators are "applied in reverse order so that the resulting CLI
surface lists parameters in declaration order", so one application
prepends its parameter to the visible surface; this folds over the
decorators in the reversed order the source's application loop uses. -/
def applySurface (decos : List (String × ClickDeco)) : List String :=
  (decos.reverse).foldl (fun surf d => d.1 :: surf) []

/-- The internal-parameter collection: names of the re-inspected
signature starting with `_` whose default is `inspect.Parameter.empty`.
Click decorators leave the function's signature unchanged, so the
re-inspected signature is the original one. -/
def internalParams (ps : List (String × Param)) : List String :=
  (ps.filter (fun np => startsWithUnderscore np.1 && (np.2.default == PyObj.emptySentinel))).map
    (fun np => np.1)

/-- The result of a successful `auto_click_decorate_command`: the
generated decorators in enumeration order, the visible CLI surface after
applying them in reverse, the internal parameter names, whether the
`None`-supplying wrapper was added, and the (unchanged) signature. -/
structure DecoratedFn where
  decos : List (String × ClickDeco)
  surface : List String
  internals : List String
  wrapped : Bool
  params : List (String × Param)
deriving DecidableEq

/-- `auto_click_decorate_command(fn, type_handlers)`: raise
`RuntimeError` if `fn` is already a `click.Command`; collect manual
parameter names; drop a leading `self`; generate one decorator per
remaining public, non-manual parameter; apply them in reverse; wrap when
internal parameters without a default exist. -/
def auto_click_decorate_command (fn : PyFunction) (type_handlers : ClickTypeHandlers) :
    Except CliError DecoratedFn :=
  if fn.isCommand then
    .error .alreadyCommand
  else
    let manual := manualParams fn
    let params := dropReceiver fn.params
    match genDecorators type_handlers manual params with
    | .error e => .error e
    | .ok decos =>
      let internals := internalParams fn.params
      .ok { decos := decos, surface := applySurface decos, internals := internals,
            wrapped := !internals.isEmpty, params := fn.params }

/-- The wrapper body: `for name in internal_params: if name not in
kwargs: kwargs[name] = None`, with the keyword-argument dictionary as a
partial map from names to values. -/
def wrapperKwargs : List String → (String → Option PyObj) → String → Option PyObj
  | [], kwargs => kwargs
  | n :: rest, kwargs =>
    wrapperKwargs rest
      (if (kwargs n).isSome then kwargs
       else fun m => if m = n then some PyObj.pyNone else kwargs m)

/-- The keyword arguments the underlying function receives when the
decorated callable is invoked with `kwargs`: the wrapper fills in `None`
for missing internal parameters; without the wrapper the call passes
through unchanged. -/
def invokeReceivedKwargs (d : DecoratedFn) (kwargs : String → Option PyObj) :
    String → Option PyObj :=
  if d.wrapped then wrapperKwargs d.internals kwargs else kwargs

example :
    auto_click_decorate_command
      ⟨false, [("self", ⟨PyObj.emptySentinel, PyObj.emptySentinel⟩),
               ("count", ⟨PyObj.emptySentinel, PyObj.emptySentinel⟩),
               ("_ctx", ⟨PyObj.emptySentinel, PyObj.emptySentinel⟩)], []⟩
      ⟨fun _ _ => none, false⟩ =
      .ok { decos := [("count", .argument "count" none)], surface := ["count"],
            internals := ["_ctx"], wrapped := true,
            params := [("self", ⟨PyObj.emptySentinel, PyObj.emptySentinel⟩),
                       ("count", ⟨PyObj.emptySentinel, PyObj.emptySentinel⟩),
                       ("_ctx", ⟨PyObj.emptySentinel, PyObj.emptySentinel⟩)] } := by
  decide

/-! ## Helper lemmas -/

/-- The second output of `_extract_annot` is never the `bool` type
object itself: it is `None` or the whole `typing.Annotated` object. -/
theorem extract_annot_snd_ne_bool (a : PyObj) :
    (extract_annot a).2.1 ≠ some PyObj.boolTy := by
  cases a
  case annotated args => cases args <;> simp [extract_annot]
  all_goals simp [extract_annot]

/-! ## Claim C9 -/

/-- C9: the annotation resolver is total; on a `typing.Annotated` with a
non-empty argument tuple it returns (first argument, original annotation,
remaining arguments); on any other annotation (including the
no-annotation sentinel and an argumentless `Annotated`) it returns
(the annotation itself, none, none). -/
theorem extract_annot_total (a : PyObj) :
    (∀ x rest, a = PyObj.annotated (x :: rest) →
        extract_annot a = (x, some a, some rest)) ∧
    ((∀ x rest, a ≠ PyObj.annotated (x :: rest)) →
        extract_annot a = (a, none, none)) := by
  constructor
  · rintro x rest rfl
    rfl
  · intro h
    cases a
    case annotated args =>
      cases args
      · rfl
      · exact absurd rfl (h _ _)
    all_goals rfl

/-- Witness for C9 at `typing.Annotated[bool, "m"]` and at the
no-annotation sentinel. -/
theorem extract_annot_total_witness :
    extract_annot (PyObj.annotated [PyObj.boolTy, PyObj.val "m"]) =
      (PyObj.boolTy, some (PyObj.annotated [PyObj.boolTy, PyObj.val "m"]),
        some [PyObj.val "m"]) ∧
    extract_annot PyObj.emptySentinel = (PyObj.emptySentinel, none, none) :=
  ⟨(extract_annot_total _).1 _ _ rfl,
   (extract_annot_total _).2 (by intro x rest h; cases h)⟩

/-! ## Claim C2 -/

/-- C2: the synthesizer raises the unresolvable-type error exactly when
the registry lookup for (base type, metadata) yields no descriptor and
the registry is non-empty, and the raised error identifies the base
type, the annotation and the metadata; in particular an empty registry
never makes the synthesizer raise. -/
theorem unresolvable_error_iff (name : String) (param : Param)
    (th : ClickTypeHandlers) (e : CliError) :
    generate_click_decorator name param th = .error e ↔
      th.resolve (extract_annot param.annot).1
          (extract_annot param.annot).2.2 = none ∧
      th.nonempty = true ∧
      e = .noParamType (extract_annot param.annot).1
          (extract_annot param.annot).2.1 (extract_annot param.annot).2.2 := by
  rcases hE : extract_annot param.annot with ⟨b, a0, m⟩
  simp only [generate_click_decorator, hE]
  by_cases h1 : (th.resolve b m).isNone = true ∧ th.nonempty = true
  · rw [if_pos h1]
    have hr := Option.isNone_iff_eq_none.mp h1.1
    simp [hr, h1.2, eq_comm]
  · rw [if_neg h1]
    constructor
    · intro h
      split_ifs at h
    · rintro ⟨hr, hn, _⟩
      exact absurd ⟨Option.isNone_iff_eq_none.mpr hr, hn⟩ h1

/-- Witness for C2: an `int`-annotated parameter with a non-empty
registry that resolves nothing raises the error naming base type,
annotation and metadata. -/
theorem unresolvable_error_iff_witness :
    generate_click_decorator "x" ⟨PyObj.otherTy "int", PyObj.emptySentinel⟩
      ⟨fun _ _ => none, true⟩ = .error (.noParamType (PyObj.otherTy "int") none none) :=
  (unresolvable_error_iff "x" ⟨PyObj.otherTy "int", PyObj.emptySentinel⟩
      ⟨fun _ _ => none, true⟩ (.noParamType (PyObj.otherTy "int") none none)).mpr
    ⟨rfl, rfl, rfl⟩

/-! ## Claim C3 -/

/-- C3: invoking the orchestrator on a callable that is already a full
Click command raises the already-a-command `RuntimeError` before any
decorator is synthesized or applied: the result is the bare error, not a
decorated callable. -/
theorem already_command_rejected (fn : PyFunction) (th : ClickTypeHandlers)
    (h : fn.isCommand = true) :
    auto_click_decorate_command fn th = .error .alreadyCommand := by
  simp [auto_click_decorate_command, h]

/-- Witness for C3 at a concrete command object. -/
theorem already_command_rejected_witness :
    auto_click_decorate_command
      ⟨true, [("x", ⟨PyObj.emptySentinel, PyObj.emptySentinel⟩)], []⟩
      ⟨fun _ _ => none, false⟩ = .error .alreadyCommand :=
  already_command_rejected _ _ rfl

/-! ## Claim C1 -/

/-- C1 counterexample: a metadata-free `bool` parameter with a non-empty
registry whose lookup yields no descriptor for `bool` makes the
synthesizer raise the unresolvable-type error rather than produce the
flag option: the error check precedes the boolean-flag branch in the
source. -/
theorem bool_flag_registry_counterexample :
    generate_click_decorator "verbose" ⟨PyObj.boolTy, PyObj.emptySentinel⟩
      ⟨fun _ _ => none, true⟩ = .error (.noParamType PyObj.boolTy none none) := by
  decide

/-- C1 amended: for a parameter whose resolved base type is `bool` with
no metadata, provided the registry lookup yields a descriptor or the
registry is empty (so the unresolvable-type check passes), the
synthesizer produces a flag option named `--` plus the
underscore-to-hyphen parameter name, with the parameter's default as the
flag default. -/
theorem bool_flag_option_amended (name : String) (param : Param) (th : ClickTypeHandlers)
    (hb : (extract_annot param.annot).1 = PyObj.boolTy)
    (hm : metadataFalsy (extract_annot param.annot).2.2 = true)
    (hok : (th.resolve (extract_annot param.annot).1
        (extract_annot param.annot).2.2).isSome = true ∨ th.nonempty = false) :
    generate_click_decorator name param th =
      .ok (.option ["--" ++ hyphenate name] true param.default false none) := by
  rcases hE : extract_annot param.annot with ⟨b, a0, m⟩
  rw [hE] at hb hm hok
  dsimp only at hb hm hok
  simp only [generate_click_decorator, hE]
  have h1 : ¬((th.resolve b m).isNone = true ∧ th.nonempty = true) := by
    rintro ⟨hn, hne⟩
    rcases hok with h | h
    · rw [Option.isNone_iff_eq_none.mp hn] at h
      cases h
    · rw [h] at hne
      cases hne
  rw [if_neg h1, if_pos ⟨hb, hm⟩]

/-- Witness for C1 amended: `foo_bar: bool = False` with an empty
registry becomes flag option `--foo-bar` with default `False`. -/
theorem bool_flag_option_amended_witness :
    generate_click_decorator "foo_bar" ⟨PyObj.boolTy, PyObj.val "False"⟩
      ⟨fun _ _ => none, false⟩ =
      .ok (.option ["--foo-bar"] true (PyObj.val "False") false none) := by
  rw [bool_flag_option_amended "foo_bar" ⟨PyObj.boolTy, PyObj.val "False"⟩
      ⟨fun _ _ => none, false⟩ rfl rfl (Or.inr rfl)]
  decide

/-! ## Claim C4 -/

/-- C4 counterexample: an `Annotated[bool, ...]` parameter with metadata
and a default yields an option WITHOUT the `is_flag` directive: the
source tests `annotation is bool` on the second output of
`_extract_annot`, which in this branch is `None` or the whole
`Annotated` object, never `bool` itself. -/
theorem defaulted_bool_is_flag_counterexample :
    (generate_click_decorator "flag"
        ⟨PyObj.annotated [PyObj.boolTy, PyObj.val "m"], PyObj.val "False"⟩
        ⟨fun _ _ => some ⟨"BOOLPT"⟩, true⟩ =
      .ok (.option ["--flag"] false (PyObj.val "False") true (some ⟨"BOOLPT"⟩))) ∧
    generate_click_decorator "flag"
        ⟨PyObj.annotated [PyObj.boolTy, PyObj.val "m"], PyObj.val "False"⟩
        ⟨fun _ _ => some ⟨"BOOLPT"⟩, true⟩ ≠
      .ok (.option ["--flag"] true (PyObj.val "False") true (some ⟨"BOOLPT"⟩)) := by
  decide

/-- C4 amended: in the defaulted-parameter branch (default present, not a
plain metadata-free bool, and the lookup succeeded or the registry is
empty) the produced option carries the default, the show-default
directive and the resolved descriptor when found, and never an `is_flag`
directive: the source's flag condition compares the original annotation
object, which in this branch is never the `bool` type itself. -/
theorem defaulted_option_amended (name : String) (param : Param) (th : ClickTypeHandlers)
    (hd : param.default ≠ PyObj.emptySentinel)
    (hnb : ¬((extract_annot param.annot).1 = PyObj.boolTy ∧
        metadataFalsy (extract_annot param.annot).2.2 = true))
    (hok : (th.resolve (extract_annot param.annot).1
        (extract_annot param.annot).2.2).isSome = true ∨ th.nonempty = false) :
    generate_click_decorator name param th =
      .ok (.option ["--" ++ hyphenate name] false param.default true
        (th.resolve (extract_annot param.annot).1
          (extract_annot param.annot).2.2)) := by
  have hsnd := extract_annot_snd_ne_bool param.annot
  rcases hE : extract_annot param.annot with ⟨b, a0, m⟩
  rw [hE] at hnb hok hsnd
  dsimp only at hnb hok hsnd
  simp only [generate_click_decorator, hE]
  have h1 : ¬((th.resolve b m).isNone = true ∧ th.nonempty = true) := by
    rintro ⟨hn, hne⟩
    rcases hok with h | h
    · rw [Option.isNone_iff_eq_none.mp hn] at h
      cases h
    · rw [h] at hne
      cases hne
  have hbeq : (a0 == some PyObj.boolTy) = false := by
    simp only [beq_eq_false_iff_ne, ne_eq]
    exact hsnd
  rw [if_neg h1, if_neg hnb, if_neg (fun hcon => hcon.1 hd),
    if_neg (fun hcon => hcon hd), hbeq]

/-- Witness for C4 amended: `name: str = "x"` with a registered string
handler becomes `--name` with default `"x"`, show-default, the resolved
descriptor, and no flag directive. -/
theorem defaulted_option_amended_witness :
    generate_click_decorator "name" ⟨PyObj.otherTy "str", PyObj.val "x"⟩
      ⟨fun _ _ => some ⟨"STR"⟩, true⟩ =
      .ok (.option ["--name"] false (PyObj.val "x") true (some ⟨"STR"⟩)) := by
  rw [defaulted_option_amended "name" ⟨PyObj.otherTy "str", PyObj.val "x"⟩
      ⟨fun _ _ => some ⟨"STR"⟩, true⟩ (by decide) (by decide) (Or.inl rfl)]
  decide

/-! ## Claim C5 -/

/-- C5 counterexample: a metadata-free `bool` parameter with no default
and a registry that resolves it yields the flag option, not a required
positional argument carrying the descriptor: the boolean-flag branch
takes priority over the no-default branch. -/
theorem no_default_bool_argument_counterexample :
    (generate_click_decorator "flag" ⟨PyObj.boolTy, PyObj.emptySentinel⟩
        ⟨fun _ _ => some ⟨"BOOLPT"⟩, true⟩ =
      .ok (.option ["--flag"] true PyObj.emptySentinel false none)) ∧
    generate_click_decorator "flag" ⟨PyObj.boolTy, PyObj.emptySentinel⟩
        ⟨fun _ _ => some ⟨"BOOLPT"⟩, true⟩ ≠
      .ok (.argument "flag" (some ⟨"BOOLPT"⟩)) := by
  decide

/-- C5 amended: for a parameter that is not a plain metadata-free bool
and has no default, a successful registry lookup yields a required
positional argument carrying the resolved descriptor, and a failed
lookup with an empty registry (the only way the no-descriptor case
survives the error check) yields an untyped positional argument bound by
name. -/
theorem no_default_argument_amended (name : String) (param : Param) (th : ClickTypeHandlers)
    (hd : param.default = PyObj.emptySentinel)
    (hnb : ¬((extract_annot param.annot).1 = PyObj.boolTy ∧
        metadataFalsy (extract_annot param.annot).2.2 = true)) :
    ((th.resolve (extract_annot param.annot).1
        (extract_annot param.annot).2.2).isSome = true →
      generate_click_decorator name param th =
        .ok (.argument name (th.resolve (extract_annot param.annot).1
          (extract_annot param.annot).2.2))) ∧
    (th.resolve (extract_annot param.annot).1
        (extract_annot param.annot).2.2 = none → th.nonempty = false →
      generate_click_decorator name param th = .ok (.argument name none)) := by
  rcases hE : extract_annot param.annot with ⟨b, a0, m⟩
  rw [hE] at hnb
  dsimp only at hnb
  dsimp only
  constructor
  · intro hres
    simp only [generate_click_decorator, hE]
    have h1 : ¬((th.resolve b m).isNone = true ∧ th.nonempty = true) := by
      rintro ⟨hn, _⟩
      rw [Option.isNone_iff_eq_none.mp hn] at hres
      cases hres
    rw [if_neg h1, if_neg hnb, if_pos ⟨fun hcon => hcon hd, hres⟩]
  · intro hres hne
    simp only [generate_click_decorator, hE]
    have h1 : ¬((th.resolve b m).isNone = true ∧ th.nonempty = true) := by
      rintro ⟨_, hn2⟩
      rw [hne] at hn2
      cases hn2
    rw [if_neg h1, if_neg hnb,
      if_neg (fun hcon => by rw [hres] at hcon; cases hcon.2),
      if_pos (fun hcon => hcon hd)]

/-- Witness for C5 amended: `count: int` with a registered int handler
becomes a typed positional argument; an unannotated `count` with an
empty registry becomes an untyped positional argument. -/
theorem no_default_argument_amended_witness :
    generate_click_decorator "count" ⟨PyObj.otherTy "int", PyObj.emptySentinel⟩
      ⟨fun _ _ => some ⟨"INT"⟩, true⟩ = .ok (.argument "count" (some ⟨"INT"⟩)) ∧
    generate_click_decorator "count" ⟨PyObj.emptySentinel, PyObj.emptySentinel⟩
      ⟨fun _ _ => none, false⟩ = .ok (.argument "count" none) :=
  ⟨(no_default_argument_amended "count" ⟨PyObj.otherTy "int", PyObj.emptySentinel⟩
      ⟨fun _ _ => some ⟨"INT"⟩, true⟩ rfl (by decide)).1 rfl,
   (no_default_argument_amended "count" ⟨PyObj.emptySentinel, PyObj.emptySentinel⟩
      ⟨fun _ _ => none, false⟩ rfl (by decide)).2 rfl rfl⟩

/-! ## Orchestrator lemmas -/

/-- Applying the decorator-application fold prepends the reversed names
onto the accumulator. -/
theorem foldl_prepend_eq (l : List (String × ClickDeco)) (acc : List String) :
    l.foldl (fun surf d => d.1 :: surf) acc = (l.map Prod.fst).reverse ++ acc := by
  induction l generalizing acc with
  | nil => simp
  | cons x xs ih => simp [ih]

/-- The visible surface after applying the generated decorators in
reverse is the generated parameter names in enumeration order. -/
theorem applySurface_eq (decos : List (String × ClickDeco)) :
    applySurface decos = decos.map Prod.fst := by
  rw [applySurface, foldl_prepend_eq]
  simp

/-- Field characterization of a successful orchestration. -/
theorem auto_ok_fields (fn : PyFunction) (th : ClickTypeHandlers) (d : DecoratedFn)
    (hok : auto_click_decorate_command fn th = .ok d) :
    genDecorators th (manualParams fn) (dropReceiver fn.params) = .ok d.decos ∧
    d.surface = applySurface d.decos ∧
    d.internals = internalParams fn.params ∧
    d.wrapped = !(internalParams fn.params).isEmpty ∧
    d.params = fn.params := by
  simp only [auto_click_decorate_command] at hok
  split at hok
  · cases hok
  · split at hok
    · cases hok
    · next heq =>
      cases hok
      exact ⟨heq, rfl, rfl, rfl, rfl⟩

/-- The names of the generated decorators are the eligible parameter
names, in enumeration order. -/
theorem genDecorators_names (th : ClickTypeHandlers) (manual : List String)
    (ps : List (String × Param)) (ds : List (String × ClickDeco))
    (h : genDecorators th manual ps = .ok ds) :
    ds.map Prod.fst =
      (ps.filter (fun np => !startsWithUnderscore np.1 && !decide (np.1 ∈ manual))).map
        Prod.fst := by
  induction ps generalizing ds with
  | nil =>
    cases h
    rfl
  | cons np rest ih =>
    obtain ⟨name, param⟩ := np
    simp only [genDecorators] at h
    split_ifs at h with h1 h2
    · rw [ih ds h]
      simp [List.filter_cons, h1]
    · rw [ih ds h]
      simp [List.filter_cons, h1, h2]
    · split at h
      · cases h
      · split at h
        · cases h
        · next ds0 heq =>
          cases h
          simp only [List.map_cons, List.filter_cons]
          rw [ih ds0 heq]
          simp [h1, h2]

/-- Counting a name among the eligible parameter names: the full count
when the name itself is eligible, zero otherwise (eligibility depends
only on the name). -/
theorem count_filter_names (name : String) (manual : List String)
    (ps : List (String × Param)) :
    (((ps.filter (fun np => !startsWithUnderscore np.1 && !decide (np.1 ∈ manual))).map
        Prod.fst).count name) =
      if !startsWithUnderscore name && !decide (name ∈ manual)
      then ((ps.map Prod.fst).count name) else 0 := by
  induction ps with
  | nil => simp
  | cons np rest ih =>
    simp only [List.filter_cons]
    by_cases hf : (!startsWithUnderscore np.1 && !decide (np.1 ∈ manual)) = true
    · rw [if_pos hf]
      by_cases hn : np.1 = name
      · subst hn
        simp only [List.map_cons, List.count_cons_self, ih, if_pos hf]
      · simp only [List.map_cons, List.count_cons_of_ne (fun he => hn he.symm), ih]
    · rw [if_neg hf]
      by_cases hn : np.1 = name
      · subst hn
        simp only [ih, if_neg hf]
      · simp only [ih, List.map_cons, List.count_cons_of_ne (fun he => hn he.symm)]

/-- Per-name decorator count for a successful generation pass. -/
theorem genDecorators_count (th : ClickTypeHandlers) (manual : List String)
    (ps : List (String × Param)) (ds : List (String × ClickDeco))
    (h : genDecorators th manual ps = .ok ds) (name : String) :
    (ds.map Prod.fst).count name =
      if startsWithUnderscore name = true ∨ name ∈ manual then 0
      else (ps.map Prod.fst).count name := by
  rw [genDecorators_names th manual ps ds h, count_filter_names name manual ps]
  by_cases h1 : startsWithUnderscore name = true <;>
    by_cases h2 : name ∈ manual <;> simp [h1, h2]

/-- Filling in keyword arguments never changes a key that is already
present. -/
theorem wrapperKwargs_preserve (internals : List String)
    (kwargs : String → Option PyObj) (k : String) (v : PyObj)
    (h : kwargs k = some v) : wrapperKwargs internals kwargs k = some v := by
  induction internals generalizing kwargs with
  | nil => exact h
  | cons n rest ih =>
    rw [wrapperKwargs]
    apply ih
    by_cases hn : (kwargs n).isSome = true
    · rw [if_pos hn]
      exact h
    · rw [if_neg hn]
      by_cases hk : k = n
      · subst hk
        rw [h] at hn
        cases hn rfl
      · rw [if_neg hk]
        exact h

/-- Filling in keyword arguments supplies `None` for a listed key that
is absent. -/
theorem wrapperKwargs_fills (internals : List String)
    (kwargs : String → Option PyObj) (k : String)
    (hmem : k ∈ internals) (h : kwargs k = none) :
    wrapperKwargs internals kwargs k = some PyObj.pyNone := by
  induction internals generalizing kwargs with
  | nil => cases hmem
  | cons n rest ih =>
    rw [wrapperKwargs]
    by_cases hk : k = n
    · subst hk
      rw [if_neg (by simp [h])]
      exact wrapperKwargs_preserve rest _ k PyObj.pyNone (by simp)
    · have hmem2 : k ∈ rest := by
        rcases List.mem_cons.mp hmem with h1 | h1
        · exact absurd h1 hk
        · exact h1
      by_cases hn : (kwargs n).isSome = true
      · rw [if_pos hn]
        exact ih _ hmem2 h
      · rw [if_neg hn]
        exact ih _ hmem2 (by simp [hk, h])

/-- A parameter whose name starts with `_` and whose default is absent
is collected among the internal parameters. -/
theorem mem_internalParams (ps : List (String × Param)) (iname : String) (p : Param)
    (hmem : (iname, p) ∈ ps) (hu : startsWithUnderscore iname = true)
    (hd : p.default = PyObj.emptySentinel) : iname ∈ internalParams ps :=
  List.mem_map.mpr ⟨(iname, p), List.mem_filter.mpr ⟨hmem, by simp [hu, hd]⟩, rfl⟩

/-- A sample callable: `def f(self, count, _ctx): ...` with no manual
Click decorations. -/
def sampleFn : PyFunction :=
  ⟨false, [("self", ⟨PyObj.emptySentinel, PyObj.emptySentinel⟩),
           ("count", ⟨PyObj.emptySentinel, PyObj.emptySentinel⟩),
           ("_ctx", ⟨PyObj.emptySentinel, PyObj.emptySentinel⟩)], []⟩

/-- An empty type-handler registry. -/
def sampleTh : ClickTypeHandlers := ⟨fun _ _ => none, false⟩

/-- The orchestration result for `sampleFn` under `sampleTh`. -/
def sampleD : DecoratedFn :=
  { decos := [("count", .argument "count" none)], surface := ["count"],
    internals := ["_ctx"], wrapped := true, params := sampleFn.params }

/-- A sample callable whose first parameter is `cls` and whose second is
`self` with a default. -/
def sampleFn2 : PyFunction :=
  ⟨false, [("cls", ⟨PyObj.emptySentinel, PyObj.emptySentinel⟩),
           ("self", ⟨PyObj.emptySentinel, PyObj.val "0"⟩)], []⟩

/-- The orchestration result for `sampleFn2` under `sampleTh`. -/
def sampleD2 : DecoratedFn :=
  { decos := [("cls", .argument "cls" none),
              ("self", .option ["--self"] false (PyObj.val "0") true none)],
    surface := ["cls", "self"], internals := [], wrapped := false,
    params := sampleFn2.params }

/-! ## Claim C6 -/

/-- C6: after a successful orchestration, an internal parameter (name
starting with `_`, no default) receives `None` when missing from the
keyword arguments of an invocation and the supplied value when present;
and when the callable has no internal parameters, no wrapper is added. -/
theorem internal_param_none_injection (fn : PyFunction) (th : ClickTypeHandlers)
    (d : DecoratedFn) (hok : auto_click_decorate_command fn th = .ok d)
    (kwargs : String → Option PyObj) (iname : String) (p : Param) :
    ((iname, p) ∈ fn.params → startsWithUnderscore iname = true →
      p.default = PyObj.emptySentinel →
      (kwargs iname = none → invokeReceivedKwargs d kwargs iname = some PyObj.pyNone) ∧
      (∀ v, kwargs iname = some v → invokeReceivedKwargs d kwargs iname = some v)) ∧
    (internalParams fn.params = [] → d.wrapped = false) := by
  obtain ⟨-, -, hint, hwr, -⟩ := auto_ok_fields fn th d hok
  constructor
  · intro hmem hu hd
    have himem : iname ∈ d.internals :=
      hint ▸ mem_internalParams fn.params iname p hmem hu hd
    have hwrap : d.wrapped = true := by
      rw [hwr]
      have hne : internalParams fn.params ≠ [] := by
        intro hempty
        rw [hint, hempty] at himem
        cases himem
      simp [List.isEmpty_iff, hne]
    constructor
    · intro hnone
      simp only [invokeReceivedKwargs]
      rw [if_pos hwrap]
      exact wrapperKwargs_fills d.internals kwargs iname himem hnone
    · intro v hv
      simp only [invokeReceivedKwargs]
      rw [if_pos hwrap]
      exact wrapperKwargs_preserve d.internals kwargs iname v hv
  · intro hempty
    rw [hwr, hempty]
    rfl

/-- Witness for C6: for `sampleFn`, `_ctx` receives `None` when omitted
and the supplied value when given. -/
theorem internal_param_none_injection_witness :
    invokeReceivedKwargs sampleD (fun _ => none) "_ctx" = some PyObj.pyNone ∧
    invokeReceivedKwargs sampleD
      (fun n => if n = "_ctx" then some (PyObj.val "7") else none) "_ctx" =
      some (PyObj.val "7") :=
  ⟨((internal_param_none_injection sampleFn sampleTh sampleD (by decide)
      (fun _ => none) "_ctx" ⟨PyObj.emptySentinel, PyObj.emptySentinel⟩).1
      (by decide) (by decide) rfl).1 rfl,
   ((internal_param_none_injection sampleFn sampleTh sampleD (by decide)
      (fun n => if n = "_ctx" then some (PyObj.val "7") else none)
      "_ctx" ⟨PyObj.emptySentinel, PyObj.emptySentinel⟩).1
      (by decide) (by decide) rfl).2 (PyObj.val "7") (by decide)⟩

/-! ## Claim C7 -/

/-- C7: after a successful orchestration of a callable whose
(receiver-stripped) parameter names are distinct, every public,
non-manually-bound parameter receives exactly one generated decorator
and every internal or manually bound parameter receives none. -/
theorem one_decorator_per_param (fn : PyFunction) (th : ClickTypeHandlers)
    (d : DecoratedFn) (hok : auto_click_decorate_command fn th = .ok d)
    (hnd : ((dropReceiver fn.params).map Prod.fst).Nodup)
    (name : String) (param : Param)
    (hmem : (name, param) ∈ dropReceiver fn.params) :
    (d.decos.map Prod.fst).count name =
      if startsWithUnderscore name = true ∨ name ∈ manualParams fn then 0 else 1 := by
  obtain ⟨hgen, -, -, -, -⟩ := auto_ok_fields fn th d hok
  rw [genDecorators_count th (manualParams fn) (dropReceiver fn.params) d.decos hgen name]
  by_cases hcond : startsWithUnderscore name = true ∨ name ∈ manualParams fn
  · rw [if_pos hcond, if_pos hcond]
  · rw [if_neg hcond, if_neg hcond]
    exact List.count_eq_one_of_mem hnd (List.mem_map.mpr ⟨(name, param), hmem, rfl⟩)

/-- Witness for C7: in `sampleFn`, the public parameter `count` receives
exactly one generated decorator. -/
theorem one_decorator_per_param_witness :
    (sampleD.decos.map Prod.fst).count "count" = 1 := by
  rw [one_decorator_per_param sampleFn sampleTh sampleD (by decide) (by decide)
    "count" ⟨PyObj.emptySentinel, PyObj.emptySentinel⟩ (by decide)]
  decide

/-! ## Claim C8 -/

/-- C8: after a successful orchestration, the visible CLI surface equals
the generated decorator names in enumeration order, which is the
declaration order of the eligible parameters: applying the collected
decorators in reverse makes the surface list parameters in declaration
order. -/
theorem surface_declaration_order (fn : PyFunction) (th : ClickTypeHandlers)
    (d : DecoratedFn) (hok : auto_click_decorate_command fn th = .ok d) :
    d.surface = d.decos.map Prod.fst ∧
    d.surface =
      ((dropReceiver fn.params).filter
        (fun np => !startsWithUnderscore np.1 && !decide (np.1 ∈ manualParams fn))).map
        Prod.fst := by
  obtain ⟨hgen, hsurf, -, -, -⟩ := auto_ok_fields fn th d hok
  rw [hsurf, applySurface_eq]
  exact ⟨rfl, genDecorators_names th (manualParams fn) (dropReceiver fn.params) d.decos hgen⟩

/-- Witness for C8: the surface of `sampleD2` lists `cls` then `self`,
the declaration order. -/
theorem surface_declaration_order_witness :
    sampleD2.surface = ["cls", "self"] := by
  rw [(surface_declaration_order sampleFn2 sampleTh sampleD2 (by decide)).2]
  decide

/-! ## Claim C10 -/

/-- C10: the receiver skip triggers exactly when the first parameter is
named `self`: such a first parameter is excluded from decoration; with
any other first name the whole parameter list is decorated; and a later
parameter named `self` (public, not manually bound) does receive a
generated decorator. -/
theorem receiver_skip_only_first_self (fn : PyFunction) (th : ClickTypeHandlers)
    (d : DecoratedFn) (hok : auto_click_decorate_command fn th = .ok d) :
    (∀ p rest, fn.params = ("self", p) :: rest →
      d.decos.map Prod.fst =
        (rest.filter (fun np => !startsWithUnderscore np.1 &&
          !decide (np.1 ∈ manualParams fn))).map Prod.fst) ∧
    (∀ n p rest, fn.params = (n, p) :: rest → n ≠ "self" →
      d.decos.map Prod.fst =
        (fn.params.filter (fun np => !startsWithUnderscore np.1 &&
          !decide (np.1 ∈ manualParams fn))).map Prod.fst) ∧
    (∀ p rest q, fn.params = ("self", p) :: rest → ("self", q) ∈ rest →
      "self" ∉ manualParams fn → "self" ∈ d.decos.map Prod.fst) := by
  obtain ⟨hgen, -, -, -, -⟩ := auto_ok_fields fn th d hok
  have hnames :=
    genDecorators_names th (manualParams fn) (dropReceiver fn.params) d.decos hgen
  refine ⟨?_, ?_, ?_⟩
  · rintro p rest hps
    rw [hnames, hps]
    simp [dropReceiver]
  · rintro n p rest hps hne
    rw [hnames, hps]
    simp [dropReceiver, hne]
  · rintro p rest q hps hmem hman
    rw [hnames, hps]
    simp only [dropReceiver, if_pos rfl]
    exact List.mem_map.mpr ⟨("self", q),
      List.mem_filter.mpr ⟨hmem, by simp [startsWithUnderscore, hman]⟩, rfl⟩

/-- Witness for C10: in `sampleFn2`, the first parameter `cls` and the
later parameter `self` both receive decorators. -/
theorem receiver_skip_only_first_self_witness :
    sampleD2.decos.map Prod.fst = ["cls", "self"] := by
  rw [(receiver_skip_only_first_self sampleFn2 sampleTh sampleD2 (by decide)).2.1
    "cls" ⟨PyObj.emptySentinel, PyObj.emptySentinel⟩
    [("self", ⟨PyObj.emptySentinel, PyObj.val "0"⟩)] rfl (by decide)]
  decide
